import Mathlib

/-!
Verification of `py::scoped_ref` from `include/libpy/scoped_ref.h`.

The header defines an RAII wrapper around a raw pointer into an externally
reference-counted runtime (CPython).  We shallowly embed the class as a Lean
structure holding an optional pointer (`none` models the C++ `nullptr`), and
embed each member function as a pure Lean function.  The side-effecting calls
`Py_XINCREF` / `Py_XDECREF` performed by a member function are recorded as an
explicit list of `Event`s in the result of the function, in the order the C++
statements execute them.  Mutation of `this` or of a by-reference argument is
modelled by returning the updated handle(s).

Reference-count accounting over a trace of events is modelled by `applyEvent`
(counts as a function from pointers to naturals) and `usesDeadObject`, which
detects an event acting on a pointer whose count has already reached zero
(an object the runtime has freed).
-/

namespace py

/-- Addresses of runtime objects.  A raw `T*` that may be null is modelled as
`Option Ptr`. -/
abbrev Ptr := Nat

/-- One call into the external reference-counted object model:
a retain (`Py_INCREF`) or a release (`Py_DECREF`) of a non-null pointer. -/
inductive Event where
  | retain (p : Ptr) : Event
  | release (p : Ptr) : Event
  deriving DecidableEq, Repr

/-- Embedding of the CPython macro `Py_XINCREF`: retains its argument when it
is non-null, does nothing on null.  Returns the events emitted. -/
def Py_XINCREF : Option Ptr → List Event
  | none => []
  | some p => [Event.retain p]

/-- Embedding of the CPython macro `Py_XDECREF`: releases its argument when it
is non-null, does nothing on null.  Returns the events emitted. -/
def Py_XDECREF : Option Ptr → List Event
  | none => []
  | some p => [Event.release p]

/-- Embedding of `py::scoped_ref<T>`: its single data member is
`T* m_ref`, modelled as an optional pointer. -/
structure scoped_ref where
  m_ref : Option Ptr
  deriving DecidableEq, Repr

namespace scoped_ref

/-- Default constructor `scoped_ref() : m_ref(nullptr)` (also the
`std::nullptr_t` constructor): the new handle paired with the events emitted
(none). -/
def mkNull : scoped_ref × List Event :=
  (⟨none⟩, [])

/-- Adopting constructor `explicit scoped_ref(T* ref) : m_ref(ref)`: stores
the pointer as-is, no retain. -/
def adopt (ref : Option Ptr) : scoped_ref × List Event :=
  (⟨ref⟩, [])

/-- Copy constructor `scoped_ref(const scoped_ref& cpfrom) : m_ref(cpfrom.m_ref)
\x7b Py_XINCREF(m_ref); \x7d`.  Returns (new handle, source after the call,
events); the source is `const` and never written. -/
def copyCtor (cpfrom : scoped_ref) : scoped_ref × scoped_ref × List Event :=
  (⟨cpfrom.m_ref⟩, cpfrom, Py_XINCREF cpfrom.m_ref)

/-- Move constructor `scoped_ref(scoped_ref&& mvfrom) : m_ref(mvfrom.m_ref)
\x7b mvfrom.m_ref = nullptr; \x7d`.  Returns (new handle, moved-from handle
after the call, events). -/
def moveCtor (mvfrom : scoped_ref) : scoped_ref × scoped_ref × List Event :=
  (⟨mvfrom.m_ref⟩, ⟨none⟩, [])

/-- Copy assignment `operator=(const scoped_ref& cpfrom)`:
`Py_XDECREF(m_ref); m_ref = cpfrom.m_ref; Py_XINCREF(m_ref);`.
Returns (assignee after, source after, events in execution order).  The
source is `const` and never written, so when `cpfrom` aliases `*this` the
field read `cpfrom.m_ref` still yields the original pointer and this
function applied to two equal handles is the exact behaviour of
self-assignment. -/
def copyAssign (self cpfrom : scoped_ref) : scoped_ref × scoped_ref × List Event :=
  (⟨cpfrom.m_ref⟩, cpfrom, Py_XDECREF self.m_ref ++ Py_XINCREF cpfrom.m_ref)

/-- Move assignment `operator=(scoped_ref&& mvfrom)`:
`Py_XDECREF(m_ref); m_ref = mvfrom.m_ref; mvfrom.m_ref = nullptr;`
for the case that `mvfrom` is a different object from `*this`.
Returns (assignee after, moved-from handle after, events). -/
def moveAssign (self mvfrom : scoped_ref) : scoped_ref × scoped_ref × List Event :=
  (⟨mvfrom.m_ref⟩, ⟨none⟩, Py_XDECREF self.m_ref)

/-- Move assignment in the aliased case `h = std::move(h)`: tracing the same
body with `mvfrom` aliasing `*this`, the decref runs on the stored pointer,
`m_ref = mvfrom.m_ref` rewrites the field with its own value, and
`mvfrom.m_ref = nullptr` nulls the single underlying object.  Returns
(the handle after, events). -/
def moveAssignSelf (self : scoped_ref) : scoped_ref × List Event :=
  (⟨none⟩, Py_XDECREF self.m_ref)

/-- Destructor `~scoped_ref() \x7b Py_XDECREF(m_ref); \x7d`: returns the
events emitted. -/
def dtor (h : scoped_ref) : List Event :=
  Py_XDECREF h.m_ref

/-- Member `T* escape() &&`: `T* ret = m_ref; m_ref = nullptr; return ret;`.
Returns (returned pointer, handle after, events). -/
def escape (h : scoped_ref) : Option Ptr × scoped_ref × List Event :=
  (h.m_ref, ⟨none⟩, [])

/-- Member `T* get()`: `return m_ref;`.  Returns (result, handle after,
events); the body reads the field and emits no runtime call. -/
def get (h : scoped_ref) : Option Ptr × scoped_ref × List Event :=
  (h.m_ref, h, [])

/-- Member `const T* get() const`: `return m_ref;`. -/
def getConst (h : scoped_ref) : Option Ptr × scoped_ref × List Event :=
  (h.m_ref, h, [])

/-- Member `explicit operator bool() const`: `return m_ref;`, i.e. pointer
truthiness: true iff non-null. -/
def toBool (h : scoped_ref) : Bool × scoped_ref × List Event :=
  (h.m_ref.isSome, h, [])

/-- Member `T& operator*()`: `return *m_ref;`.  Pointee values are not part
of the model, so the result is represented by the address being
dereferenced; what matters here is that the body reads `m_ref` and emits no
runtime call. -/
def derefStar (h : scoped_ref) : Option Ptr × scoped_ref × List Event :=
  (h.m_ref, h, [])

/-- Member `const T& operator*() const`: `return *m_ref;`. -/
def derefStarConst (h : scoped_ref) : Option Ptr × scoped_ref × List Event :=
  (h.m_ref, h, [])

/-- Member `T* operator->()`: `return m_ref;`. -/
def arrow (h : scoped_ref) : Option Ptr × scoped_ref × List Event :=
  (h.m_ref, h, [])

/-- Member `const T* operator->() const`: `return m_ref;`. -/
def arrowConst (h : scoped_ref) : Option Ptr × scoped_ref × List Event :=
  (h.m_ref, h, [])

/-- Member `explicit operator T*()`: `return m_ref;`. -/
def toRawPtr (h : scoped_ref) : Option Ptr × scoped_ref × List Event :=
  (h.m_ref, h, [])

/-- Member `explicit operator const T*() const`: `return m_ref;`. -/
def toRawPtrConst (h : scoped_ref) : Option Ptr × scoped_ref × List Event :=
  (h.m_ref, h, [])

/-- Member `explicit operator PyObject*()` (enabled when `T` is not
`PyObject`): `return reinterpret_cast<PyObject*>(m_ref);`.  The cast keeps
the address, so the result is the same pointer. -/
def toPyObjPtr (h : scoped_ref) : Option Ptr × scoped_ref × List Event :=
  (h.m_ref, h, [])

/-- Member `explicit operator const PyObject*() const` (enabled when `T` is
not `PyObject`): `return reinterpret_cast<const PyObject*>(m_ref);`. -/
def toPyObjPtrConst (h : scoped_ref) : Option Ptr × scoped_ref × List Event :=
  (h.m_ref, h, [])

/-- Member `bool operator==(T* other) const`: `return m_ref == other;`,
pointer identity against a raw pointer. -/
def eqPtr (h : scoped_ref) (other : Option Ptr) : Bool × scoped_ref × List Event :=
  (decide (h.m_ref = other), h, [])

/-- Member `bool operator==(const scoped_ref& other) const`:
`return m_ref == other.get();`. -/
def eqRef (h other : scoped_ref) : Bool × scoped_ref × List Event :=
  (decide (h.m_ref = (getConst other).1), h, [])

/-- Member `bool operator!=(T* other) const`: `return m_ref != other;`. -/
def nePtr (h : scoped_ref) (other : Option Ptr) : Bool × scoped_ref × List Event :=
  (decide (h.m_ref ≠ other), h, [])

/-- Member `bool operator!=(const scoped_ref& other) const`:
`return m_ref != other.get();`. -/
def neRef (h other : scoped_ref) : Bool × scoped_ref × List Event :=
  (decide (h.m_ref ≠ (getConst other).1), h, [])

/-- Number of reference-count credits an instance holds, per invariants I1
and I2 of the spec: one when the stored pointer is the given (non-null)
pointer, zero otherwise. -/
def credit (h : scoped_ref) (p : Ptr) : Int :=
  if h.m_ref = some p then 1 else 0

end scoped_ref

/-- Net change a trace of events makes to the reference count of pointer
`p`: each retain adds one, each release subtracts one. -/
def netDelta : List Event → Ptr → Int
  | [], _ => 0
  | Event.retain q :: rest, p => (if q = p then (1 : Int) else 0) + netDelta rest p
  | Event.release q :: rest, p => (if q = p then (-1 : Int) else 0) + netDelta rest p

/-- The pointer an event acts on. -/
def Event.target : Event → Ptr
  | Event.retain q => q
  | Event.release q => q

/-- Effect of one event on the reference counts: a retain increments and a
release decrements the count of its target. -/
def applyEvent (e : Event) (cnt : Ptr → Nat) : Ptr → Nat :=
  match e with
  | Event.retain q => fun p => if p = q then cnt p + 1 else cnt p
  | Event.release q => fun p => if p = q then cnt p - 1 else cnt p

/-- Runs a trace of events against initial reference counts and reports
whether some event acts on a pointer whose count is already zero — i.e. on
an object the runtime has freed (a release at count zero freed it, and any
later retain or release of it is a use-after-free). -/
def usesDeadObject (cnt : Ptr → Nat) : List Event → Bool
  | [] => false
  | e :: rest =>
      if cnt e.target = 0 then true else usesDeadObject (applyEvent e cnt) rest

/-- C1: refuted by the code.  The claim requires copy-assignment to retain the
incoming pointer before releasing the old credit of the assignee, or to
short-circuit on identical pointers, so that self-assignment never frees the
object prematurely.  The body of the copy-assignment operator instead runs
`Py_XDECREF(m_ref)` first and `Py_XINCREF` only afterwards, with no
pointer-equality test: self-assigning a handle that holds pointer 1 whose
external count is 1 emits a release followed by a retain, and after the
release the count is zero — the object is freed and the retain then acts on
the dead object, even though the net count change of the trace is zero. -/
theorem self_copy_assign_uses_freed_object :
    (scoped_ref.copyAssign ⟨some 1⟩ ⟨some 1⟩).2.2 = [Event.release 1, Event.retain 1] ∧
    usesDeadObject (fun q => if q = 1 then 1 else 0)
      (scoped_ref.copyAssign ⟨some 1⟩ ⟨some 1⟩).2.2 = true ∧
    netDelta (scoped_ref.copyAssign ⟨some 1⟩ ⟨some 1⟩).2.2 1 = 0 := by
  refine ⟨rfl, rfl, rfl⟩

/-- C2: every operation of the handle preserves the credit invariants I1 and
I2: an instance holds one credit exactly when its stored pointer is non-null
(`credit`), and the retain/release events of each operation account exactly
for the change in credits held by the handles the operation touches, so
retains and releases stay paired per credit.  Adoption introduces a handle
whose credit count equals the one pre-existing credit of the adopted pointer
without any event; escape moves the credit to the returned pointer without
any event; destruction emits exactly one release when the pointer is
non-null and no event when it is null; observers hold credits fixed and emit
no event. -/
theorem all_ops_preserve_credit_pairing (h k : scoped_ref) (r : Option Ptr) (p : Ptr) :
    (scoped_ref.mkNull.1.credit p = 0 ∧ scoped_ref.mkNull.2 = []) ∧
    ((scoped_ref.adopt r).1.credit p = (if r = some p then 1 else 0) ∧
      (scoped_ref.adopt r).2 = []) ∧
    ((scoped_ref.copyCtor h).1.credit p + (scoped_ref.copyCtor h).2.1.credit p
        = h.credit p + netDelta (scoped_ref.copyCtor h).2.2 p) ∧
    ((scoped_ref.moveCtor h).1.credit p + (scoped_ref.moveCtor h).2.1.credit p
        = h.credit p + netDelta (scoped_ref.moveCtor h).2.2 p) ∧
    ((scoped_ref.copyAssign h k).1.credit p + (scoped_ref.copyAssign h k).2.1.credit p
        = h.credit p + k.credit p + netDelta (scoped_ref.copyAssign h k).2.2 p) ∧
    ((scoped_ref.moveAssign h k).1.credit p + (scoped_ref.moveAssign h k).2.1.credit p
        = h.credit p + k.credit p + netDelta (scoped_ref.moveAssign h k).2.2 p) ∧
    ((scoped_ref.moveAssignSelf h).1.credit p
        = h.credit p + netDelta (scoped_ref.moveAssignSelf h).2 p) ∧
    ((scoped_ref.escape h).2.1.credit p
        + (if (scoped_ref.escape h).1 = some p then 1 else 0)
        = h.credit p + netDelta (scoped_ref.escape h).2.2 p) ∧
    (netDelta (scoped_ref.dtor h) p = -(h.credit p)) ∧
    (scoped_ref.dtor ⟨none⟩ = []) ∧
    (scoped_ref.dtor ⟨some p⟩ = [Event.release p]) ∧
    ((scoped_ref.get h).2.1.credit p = h.credit p ∧ (scoped_ref.get h).2.2 = []) ∧
    ((scoped_ref.getConst h).2.1.credit p = h.credit p ∧ (scoped_ref.getConst h).2.2 = []) ∧
    ((scoped_ref.toBool h).2.1.credit p = h.credit p ∧ (scoped_ref.toBool h).2.2 = []) ∧
    ((scoped_ref.derefStar h).2.1.credit p = h.credit p ∧ (scoped_ref.derefStar h).2.2 = []) ∧
    ((scoped_ref.arrow h).2.1.credit p = h.credit p ∧ (scoped_ref.arrow h).2.2 = []) ∧
    ((scoped_ref.toRawPtr h).2.1.credit p = h.credit p ∧ (scoped_ref.toRawPtr h).2.2 = []) ∧
    ((scoped_ref.toPyObjPtr h).2.1.credit p = h.credit p ∧
      (scoped_ref.toPyObjPtr h).2.2 = []) ∧
    ((scoped_ref.eqPtr h r).2.1.credit p = h.credit p ∧ (scoped_ref.eqPtr h r).2.2 = []) ∧
    ((scoped_ref.eqRef h k).2.1.credit p = h.credit p ∧ (scoped_ref.eqRef h k).2.2 = []) ∧
    ((scoped_ref.nePtr h r).2.1.credit p = h.credit p ∧ (scoped_ref.nePtr h r).2.2 = []) ∧
    ((scoped_ref.neRef h k).2.1.credit p = h.credit p ∧ (scoped_ref.neRef h k).2.2 = []) := by
  obtain ⟨hr⟩ := h
  obtain ⟨kr⟩ := k
  cases hr <;> cases kr <;>
    simp [scoped_ref.mkNull, scoped_ref.adopt, scoped_ref.copyCtor, scoped_ref.moveCtor,
      scoped_ref.copyAssign, scoped_ref.moveAssign, scoped_ref.moveAssignSelf,
      scoped_ref.escape, scoped_ref.dtor, scoped_ref.get, scoped_ref.getConst,
      scoped_ref.toBool, scoped_ref.derefStar, scoped_ref.arrow, scoped_ref.toRawPtr,
      scoped_ref.toPyObjPtr, scoped_ref.eqPtr, scoped_ref.eqRef, scoped_ref.nePtr,
      scoped_ref.neRef, scoped_ref.credit, netDelta, Py_XINCREF, Py_XDECREF] <;>
    split_ifs <;> simp_all

/-- C3: copy-constructing from a non-null handle performs exactly one retain
of its pointer, the new handle stores the same pointer, the source handle is
unchanged, and destroying either of the two handles performs exactly one
release each. -/
theorem copy_ctor_one_retain_independent_release (h : scoped_ref) (p : Ptr)
    (hp : h.m_ref = some p) :
    (scoped_ref.copyCtor h).1.m_ref = some p ∧
    (scoped_ref.copyCtor h).2.1 = h ∧
    (scoped_ref.copyCtor h).2.2 = [Event.retain p] ∧
    scoped_ref.dtor (scoped_ref.copyCtor h).1 = [Event.release p] ∧
    scoped_ref.dtor (scoped_ref.copyCtor h).2.1 = [Event.release p] := by
  simp [scoped_ref.copyCtor, scoped_ref.dtor, Py_XINCREF, Py_XDECREF, hp]

/-- Witness for C3 at the handle holding pointer 1. -/
theorem copy_ctor_one_retain_independent_release_witness :
    (scoped_ref.copyCtor ⟨some 1⟩).1.m_ref = some 1 ∧
    (scoped_ref.copyCtor ⟨some 1⟩).2.1 = (⟨some 1⟩ : scoped_ref) ∧
    (scoped_ref.copyCtor ⟨some 1⟩).2.2 = [Event.retain 1] ∧
    scoped_ref.dtor (scoped_ref.copyCtor ⟨some 1⟩).1 = [Event.release 1] ∧
    scoped_ref.dtor (scoped_ref.copyCtor ⟨some 1⟩).2.1 = [Event.release 1] :=
  copy_ctor_one_retain_independent_release ⟨some 1⟩ 1 rfl

/-- C4: moving a non-null handle into another handle (by move-construction or
move-assignment) nulls the source and hands its pointer to the destination
with no retain and no release of that credit; move-assignment additionally
emits exactly the one release of the previous credit of the assignee when the
assignee was non-null and nothing when it was null; afterwards destroying the
source is a no-op and destroying the destination emits exactly one release. -/
theorem move_transfers_pointer_no_count_change (h k : scoped_ref) (p : Ptr)
    (hp : h.m_ref = some p) :
    (scoped_ref.moveCtor h).1.m_ref = some p ∧
    (scoped_ref.moveCtor h).2.1.m_ref = none ∧
    (scoped_ref.moveCtor h).2.2 = [] ∧
    scoped_ref.dtor (scoped_ref.moveCtor h).2.1 = [] ∧
    scoped_ref.dtor (scoped_ref.moveCtor h).1 = [Event.release p] ∧
    (scoped_ref.moveAssign k h).1.m_ref = some p ∧
    (scoped_ref.moveAssign k h).2.1.m_ref = none ∧
    (scoped_ref.moveAssign k h).2.2
        = (match k.m_ref with | none => [] | some q => [Event.release q]) ∧
    scoped_ref.dtor (scoped_ref.moveAssign k h).2.1 = [] ∧
    scoped_ref.dtor (scoped_ref.moveAssign k h).1 = [Event.release p] := by
  obtain ⟨kr⟩ := k
  cases kr <;>
    simp [scoped_ref.moveCtor, scoped_ref.moveAssign, scoped_ref.dtor,
      Py_XDECREF, hp]

/-- Witness for C4: moving the handle holding pointer 1 into the handle
holding pointer 2. -/
theorem move_transfers_pointer_no_count_change_witness :
    (scoped_ref.moveCtor ⟨some 1⟩).1.m_ref = some 1 ∧
    (scoped_ref.moveCtor ⟨some 1⟩).2.1.m_ref = none ∧
    (scoped_ref.moveCtor ⟨some 1⟩).2.2 = [] ∧
    scoped_ref.dtor (scoped_ref.moveCtor ⟨some 1⟩).2.1 = [] ∧
    scoped_ref.dtor (scoped_ref.moveCtor ⟨some 1⟩).1 = [Event.release 1] ∧
    (scoped_ref.moveAssign ⟨some 2⟩ ⟨some 1⟩).1.m_ref = some 1 ∧
    (scoped_ref.moveAssign ⟨some 2⟩ ⟨some 1⟩).2.1.m_ref = none ∧
    (scoped_ref.moveAssign ⟨some 2⟩ ⟨some 1⟩).2.2
        = (match (⟨some 2⟩ : scoped_ref).m_ref with
           | none => [] | some q => [Event.release q]) ∧
    scoped_ref.dtor (scoped_ref.moveAssign ⟨some 2⟩ ⟨some 1⟩).2.1 = [] ∧
    scoped_ref.dtor (scoped_ref.moveAssign ⟨some 2⟩ ⟨some 1⟩).1 = [Event.release 1] :=
  move_transfers_pointer_no_count_change ⟨some 1⟩ ⟨some 2⟩ 1 rfl

/-- C5: escape on a non-null handle returns the stored pointer, nulls the
handle (so it tests false), performs no retain or release, leaves the count
of the returned pointer untouched (the credit still stands), and the
subsequent destruction of the handle emits no release. -/
theorem escape_returns_pointer_no_release (h : scoped_ref) (p : Ptr)
    (hp : h.m_ref = some p) :
    (scoped_ref.escape h).1 = some p ∧
    (scoped_ref.escape h).2.1.m_ref = none ∧
    (scoped_ref.toBool (scoped_ref.escape h).2.1).1 = false ∧
    (scoped_ref.escape h).2.2 = [] ∧
    netDelta (scoped_ref.escape h).2.2 p = 0 ∧
    scoped_ref.dtor (scoped_ref.escape h).2.1 = [] := by
  simp [scoped_ref.escape, scoped_ref.toBool, scoped_ref.dtor, Py_XDECREF,
    netDelta, hp]

/-- Witness for C5 at the handle holding pointer 1. -/
theorem escape_returns_pointer_no_release_witness :
    (scoped_ref.escape ⟨some 1⟩).1 = some 1 ∧
    (scoped_ref.escape ⟨some 1⟩).2.1.m_ref = none ∧
    (scoped_ref.toBool (scoped_ref.escape ⟨some 1⟩).2.1).1 = false ∧
    (scoped_ref.escape ⟨some 1⟩).2.2 = [] ∧
    netDelta (scoped_ref.escape ⟨some 1⟩).2.2 1 = 0 ∧
    scoped_ref.dtor (scoped_ref.escape ⟨some 1⟩).2.1 = [] :=
  escape_returns_pointer_no_release ⟨some 1⟩ 1 rfl

/-- C6: adopting a non-null pointer that already carries a credit stores the
pointer as-is (`get` returns it), performs no retain, and destroying the
handle emits exactly one release of that pointer. -/
theorem adopt_no_retain_one_release (p : Ptr) :
    (scoped_ref.adopt (some p)).1.m_ref = some p ∧
    (scoped_ref.get (scoped_ref.adopt (some p)).1).1 = some p ∧
    (scoped_ref.adopt (some p)).2 = [] ∧
    scoped_ref.dtor (scoped_ref.adopt (some p)).1 = [Event.release p] := by
  simp [scoped_ref.adopt, scoped_ref.get, scoped_ref.dtor, Py_XDECREF]

/-- C7: destruction emits exactly one release when the stored pointer is
non-null and no event at all when it is null; in particular destroying a
moved-from handle (after move-construction or move-assignment) or an escaped
handle emits nothing. -/
theorem dtor_release_iff_nonnull (h k : scoped_ref) (p : Ptr) :
    scoped_ref.dtor ⟨some p⟩ = [Event.release p] ∧
    scoped_ref.dtor ⟨none⟩ = [] ∧
    scoped_ref.dtor (scoped_ref.moveCtor h).2.1 = [] ∧
    scoped_ref.dtor (scoped_ref.moveAssign k h).2.1 = [] ∧
    scoped_ref.dtor (scoped_ref.escape h).2.1 = [] := by
  simp [scoped_ref.dtor, scoped_ref.moveCtor, scoped_ref.moveAssign,
    scoped_ref.escape, Py_XDECREF]

/-- C8: equality and inequality, against a raw pointer and against another
handle, hold exactly when the stored pointers are equal respectively
different — pointer identity, with no access to pointed-to data. -/
theorem comparisons_are_pointer_identity (h k : scoped_ref) (o : Option Ptr) :
    ((scoped_ref.eqPtr h o).1 = true ↔ h.m_ref = o) ∧
    ((scoped_ref.eqRef h k).1 = true ↔ h.m_ref = k.m_ref) ∧
    ((scoped_ref.nePtr h o).1 = true ↔ ¬ h.m_ref = o) ∧
    ((scoped_ref.neRef h k).1 = true ↔ ¬ h.m_ref = k.m_ref) := by
  simp [scoped_ref.eqPtr, scoped_ref.eqRef, scoped_ref.nePtr, scoped_ref.neRef,
    scoped_ref.getConst]

/-- C9: move-assigning a non-null handle to itself nulls the handle (it then
tests false) and emits exactly one release of the pointer it formerly held;
the subsequent destruction of the handle emits nothing. -/
theorem self_move_assign_nulls_and_releases_once (h : scoped_ref) (p : Ptr)
    (hp : h.m_ref = some p) :
    (scoped_ref.moveAssignSelf h).1.m_ref = none ∧
    (scoped_ref.toBool (scoped_ref.moveAssignSelf h).1).1 = false ∧
    (scoped_ref.moveAssignSelf h).2 = [Event.release p] ∧
    scoped_ref.dtor (scoped_ref.moveAssignSelf h).1 = [] := by
  simp [scoped_ref.moveAssignSelf, scoped_ref.toBool, scoped_ref.dtor,
    Py_XDECREF, hp]

/-- Witness for C9 at the handle holding pointer 1. -/
theorem self_move_assign_nulls_and_releases_once_witness :
    (scoped_ref.moveAssignSelf ⟨some 1⟩).1.m_ref = none ∧
    (scoped_ref.toBool (scoped_ref.moveAssignSelf ⟨some 1⟩).1).1 = false ∧
    (scoped_ref.moveAssignSelf ⟨some 1⟩).2 = [Event.release 1] ∧
    scoped_ref.dtor (scoped_ref.moveAssignSelf ⟨some 1⟩).1 = [] :=
  self_move_assign_nulls_and_releases_once ⟨some 1⟩ 1 rfl

/-- C10: every observer — `get` in both forms, the boolean test, dereference,
member access, the explicit pointer conversions, and the four comparisons —
returns the handle with its stored pointer unchanged and emits no retain or
release event. -/
theorem observers_no_mutation_no_events (h k : scoped_ref) (o : Option Ptr) :
    ((scoped_ref.get h).2.1 = h ∧ (scoped_ref.get h).2.2 = []) ∧
    ((scoped_ref.getConst h).2.1 = h ∧ (scoped_ref.getConst h).2.2 = []) ∧
    ((scoped_ref.toBool h).2.1 = h ∧ (scoped_ref.toBool h).2.2 = []) ∧
    ((scoped_ref.derefStar h).2.1 = h ∧ (scoped_ref.derefStar h).2.2 = []) ∧
    ((scoped_ref.derefStarConst h).2.1 = h ∧ (scoped_ref.derefStarConst h).2.2 = []) ∧
    ((scoped_ref.arrow h).2.1 = h ∧ (scoped_ref.arrow h).2.2 = []) ∧
    ((scoped_ref.arrowConst h).2.1 = h ∧ (scoped_ref.arrowConst h).2.2 = []) ∧
    ((scoped_ref.toRawPtr h).2.1 = h ∧ (scoped_ref.toRawPtr h).2.2 = []) ∧
    ((scoped_ref.toRawPtrConst h).2.1 = h ∧ (scoped_ref.toRawPtrConst h).2.2 = []) ∧
    ((scoped_ref.toPyObjPtr h).2.1 = h ∧ (scoped_ref.toPyObjPtr h).2.2 = []) ∧
    ((scoped_ref.toPyObjPtrConst h).2.1 = h ∧ (scoped_ref.toPyObjPtrConst h).2.2 = []) ∧
    ((scoped_ref.eqPtr h o).2.1 = h ∧ (scoped_ref.eqPtr h o).2.2 = []) ∧
    ((scoped_ref.eqRef h k).2.1 = h ∧ (scoped_ref.eqRef h k).2.2 = []) ∧
    ((scoped_ref.nePtr h o).2.1 = h ∧ (scoped_ref.nePtr h o).2.2 = []) ∧
    ((scoped_ref.neRef h k).2.1 = h ∧ (scoped_ref.neRef h k).2.2 = []) :=
  ⟨⟨rfl, rfl⟩, ⟨rfl, rfl⟩, ⟨rfl, rfl⟩, ⟨rfl, rfl⟩, ⟨rfl, rfl⟩, ⟨rfl, rfl⟩,
    ⟨rfl, rfl⟩, ⟨rfl, rfl⟩, ⟨rfl, rfl⟩, ⟨rfl, rfl⟩, ⟨rfl, rfl⟩, ⟨rfl, rfl⟩,
    ⟨rfl, rfl⟩, ⟨rfl, rfl⟩, ⟨rfl, rfl⟩⟩

end py
